import Mathlib

/-!
Shallow embedding of the Xeno-Mini_CRM campaign dispatch and delivery-tracking
pipeline, translated from the repository's source:

* `backend/models/Customer.js` (src/unnamed/part_007): customer schema and the
  derived `valueCategory` virtual.
* `backend/models/Campaign.js`: campaign schema, `evaluateAudience`,
  `buildConditionQuery`, `updateStats`, `start`, `complete`.
* `backend/models/CommunicationLog.js` (embedded at the end of
  src/backend/services/aiService.js): delivery-log schema and the
  `markAsSent` / `markAsDelivered` / `markAsFailed` / `markAsOpened` /
  `markAsClicked` instance methods, including the `retryCount` schema
  validator `max: 3` which is enforced by mongoose on `save()`.
* `backend/routes/campaigns.js` (src/unnamed/part_008): `launchCampaign`,
  `personalizeMessage`, `sendMessagesToVendor`, and the
  `POST /campaigns/:id/launch` handler.
* `backend/routes/vendor.js`: `processDeliveryReceipt` and the
  `/track/open/:messageId`, `/track/click/:messageId` endpoints.

Persistence is modelled as a `World` holding the stored campaign, delivery-log
and customer documents; every mongoose `save()` of a document becomes a
functional update of the corresponding list entry, and a `save()` that fails
schema validation becomes an `Except.error` (the thrown `ValidationError`).
JavaScript `Date.now()` values are passed in explicitly as `Nat` millisecond
timestamps, and the random message-id suffix produced by
`Math.random().toString(36)` is passed in as an explicit suffix function.
The simulated engagement timers that `processDeliveryReceipt` registers with
`setTimeout` in the `delivered` branch fire later as separate asynchronous
calls to `markAsOpened` / `markAsClicked`; they are not part of the
synchronous state transition performed by the receipt handler and are
modelled as separate invocations of those functions.
-/

namespace CRM

/-! ## Customer model (backend/models/Customer.js) -/

/-- Stored (non-virtual) customer fields used by the dispatch pipeline:
`name`, `totalSpent`, `visitCount`, `status`, `city`, plus the document id.
`daysSinceLastOrder` and `valueCategory` are mongoose virtuals: they are
computed on serialization and are not stored in the collection. -/
structure Customer where
  id : Nat
  name : String
  totalSpent : Int
  visitCount : Int
  status : String
  city : Option String
  deriving DecidableEq, Repr

/-- The `valueCategory` virtual of Customer.js:
`>= 50000` premium, `>= 10000` high-value, `>= 1000` regular, else new. -/
def valueCategory (totalSpent : Int) : String :=
  if totalSpent ≥ 50000 then "premium"
  else if totalSpent ≥ 10000 then "high-value"
  else if totalSpent ≥ 1000 then "regular"
  else "new"

/-! ## Audience rules (backend/models/Campaign.js) -/

/-- The `field` enum of a campaign audience condition. -/
inductive CField
  | totalSpent | visitCount | daysSinceLastOrder | status | city | valueCategory
  deriving DecidableEq, Repr

/-- The `operator` enum of a campaign audience condition. `in`, `nin` and
`exists` are Lean keywords or near-keywords, so they are spelled
`inOp`, `ninOp`, `existsOp`. -/
inductive COp
  | gt | gte | lt | lte | eq | ne | inOp | ninOp | existsOp
  deriving DecidableEq, Repr

/-- A primitive BSON value occurring in conditions and documents. -/
inductive Prim
  | num (n : Int)
  | str (s : String)
  | boolV (b : Bool)
  deriving DecidableEq, Repr

/-- A condition `value` (`mongoose.Schema.Types.Mixed`): a primitive or an
array of primitives (arrays are what `in`/`nin` conditions carry). -/
inductive CondValue
  | prim (p : Prim)
  | arr (ps : List Prim)
  deriving DecidableEq, Repr

/-- One audience condition `{field, operator, value}`. -/
structure Condition where
  field : CField
  operator : COp
  value : CondValue
  deriving DecidableEq, Repr

/-- The `logic` mode of an audience rule. -/
inductive Logic
  | AND | OR
  deriving DecidableEq, Repr

/-- An audience rule `{conditions, logic}`. -/
structure Rules where
  conditions : List Condition
  logic : Logic
  deriving DecidableEq, Repr

/-- JavaScript truthiness of a condition value, as applied by
`Boolean(value)` in the `exists` branch of `buildConditionQuery`. -/
def truthy : CondValue → Bool
  | .prim (.num n) => n ≠ 0
  | .prim (.str s) => s ≠ ""
  | .prim (.boolV b) => b
  | .arr _ => true

/-- The per-field MongoDB query condition produced by `buildConditionQuery`:
`{$gt: v}`, `{$gte: v}`, ..., a plain equality value, `{$in: vs}`,
`{$nin: vs}`, or `{$exists: b}`. -/
inductive QueryCond
  | qgt (v : CondValue)
  | qgte (v : CondValue)
  | qlt (v : CondValue)
  | qlte (v : CondValue)
  | qeq (v : CondValue)
  | qne (v : CondValue)
  | qin (vs : List Prim)
  | qnin (vs : List Prim)
  | qex (b : Bool)
  deriving DecidableEq, Repr

/-- `buildConditionQuery(condition)` of Campaign.js: translates one condition
into the pair (top-level query key, query condition). The `in`/`nin` branches
wrap a non-array value into a singleton array (`Array.isArray` check); the
(unreachable, since `operator` is schema-validated) `default` branch of the
source `switch` is plain equality, which coincides with the `eq` branch. -/
def buildConditionQuery (cond : Condition) : CField × QueryCond :=
  match cond.operator with
  | .gt => (cond.field, .qgt cond.value)
  | .gte => (cond.field, .qgte cond.value)
  | .lt => (cond.field, .qlt cond.value)
  | .lte => (cond.field, .qlte cond.value)
  | .eq => (cond.field, .qeq cond.value)
  | .ne => (cond.field, .qne cond.value)
  | .inOp =>
    (cond.field, .qin (match cond.value with | .arr vs => vs | .prim p => [p]))
  | .ninOp =>
    (cond.field, .qnin (match cond.value with | .arr vs => vs | .prim p => [p]))
  | .existsOp => (cond.field, .qex (truthy cond.value))

/-- The stored BSON value of a customer document field, as seen by
`Customer.find`. `daysSinceLastOrder` and `valueCategory` are virtuals and do
not exist on the stored document, so a query on them sees a missing field. -/
def getField (c : Customer) : CField → Option Prim
  | .totalSpent => some (.num c.totalSpent)
  | .visitCount => some (.num c.visitCount)
  | .status => some (.str c.status)
  | .city => c.city.map .str
  | .daysSinceLastOrder => none
  | .valueCategory => none

/-- MongoDB ordering on primitive values within one BSON type class;
values of different type classes do not compare (type bracketing). -/
def primLt : Prim → Prim → Bool
  | .num a, .num b => decide (a < b)
  | .str a, .str b => decide (a < b)
  | .boolV a, .boolV b => !a && b
  | _, _ => false

/-- MongoDB matching of one top-level query pair `field: queryCond` against a
customer document. A missing field fails the affirmative operators and
satisfies `$ne`/`$nin`/`$exists:false`, per MongoDB semantics. -/
def matchesPair (c : Customer) (f : CField) (qc : QueryCond) : Bool :=
  let fv := getField c f
  match qc with
  | .qgt v =>
    match fv, v with
    | some p, .prim q => primLt q p
    | _, _ => false
  | .qgte v =>
    match fv, v with
    | some p, .prim q => primLt q p || decide (p = q)
    | _, _ => false
  | .qlt v =>
    match fv, v with
    | some p, .prim q => primLt p q
    | _, _ => false
  | .qlte v =>
    match fv, v with
    | some p, .prim q => primLt p q || decide (p = q)
    | _, _ => false
  | .qeq v =>
    match fv, v with
    | some p, .prim q => decide (p = q)
    | _, _ => false
  | .qne v =>
    match fv, v with
    | some p, .prim q => !decide (p = q)
    | _, _ => true
  | .qin vs =>
    match fv with
    | some p => vs.contains p
    | none => false
  | .qnin vs =>
    match fv with
    | some p => !vs.contains p
    | none => true
  | .qex b => if b then fv.isSome else fv.isNone

/-- Whether a customer satisfies one condition on its own, i.e. membership in
the per-condition match set: the customer matches the single-pair query
`buildConditionQuery(condition)`. -/
def condMatches (c : Customer) (cond : Condition) : Bool :=
  matchesPair c (buildConditionQuery cond).1 (buildConditionQuery cond).2

/-- `Object.assign(query, conditionQuery)` on the top-level query object:
if the key is already present its value is overwritten in place, otherwise
the key is appended. -/
def assignKey (q : List (CField × QueryCond)) (f : CField) (v : QueryCond) :
    List (CField × QueryCond) :=
  if q.any (fun p => p.1 == f) then
    q.map (fun p => if p.1 == f then (f, v) else p)
  else
    q ++ [(f, v)]

/-- The accumulated `query` object built by the AND branch of
`evaluateAudience`: `rules.conditions.forEach(... Object.assign(query, ...))`. -/
def buildAndQuery (conds : List Condition) : List (CField × QueryCond) :=
  conds.foldl
    (fun q cond => assignKey q (buildConditionQuery cond).1 (buildConditionQuery cond).2)
    []

/-- Whether a customer matches every top-level pair of a query object. -/
def matchesQuery (c : Customer) (q : List (CField × QueryCond)) : Bool :=
  q.all (fun p => matchesPair c p.1 p.2)

/-- `Campaign.evaluateAudience(rules)` over the customer store: empty
condition lists return `[]`; `OR` builds `$or` over the per-condition
queries; otherwise (AND, the default) the per-condition queries are merged
into one object with `Object.assign` and matched conjunctively.
`Customer.find` returns the store-order list of matching documents. -/
def evaluateAudience (rules : Rules) (customers : List Customer) : List Customer :=
  if rules.conditions.isEmpty then []
  else
    match rules.logic with
    | .OR =>
      customers.filter (fun c => rules.conditions.any (fun cond => condMatches c cond))
    | .AND =>
      customers.filter (fun c => matchesQuery c (buildAndQuery rules.conditions))

/-! ## Message personalization (backend/routes/campaigns.js) -/

/-- Digit grouping in pairs from the least-significant end, applied to the
reversed leading digits of an en-IN formatted number. -/
def groupTwosRev : List Char → List Char
  | [] => []
  | [a] => [a]
  | [a, b] => [a, b]
  | a :: b :: rest => a :: b :: ',' :: groupTwosRev rest

/-- `Number.prototype.toLocaleString('en-IN')` for a natural number: the last
three digits form one group, the remaining digits are grouped in twos
(e.g. 15000 ↦ "15,000", 150000 ↦ "1,50,000"). -/
def enInNat (n : Nat) : String :=
  let ds := (toString n).toList
  if ds.length ≤ 3 then String.mk ds
  else
    let hi := ds.take (ds.length - 3)
    let lo := ds.drop (ds.length - 3)
    String.mk ((groupTwosRev hi.reverse).reverse ++ ',' :: lo)

/-- `toLocaleString('en-IN')` for an integer (negative values are prefixed
with a minus sign; customer `totalSpent` is schema-constrained to `min: 0`). -/
def enInInt (n : Int) : String :=
  if n < 0 then "-" ++ enInNat n.natAbs else enInNat n.toNat

/-- One pass of `String.prototype.replace` with a global literal-text pattern:
scan left to right, replace each non-overlapping occurrence of `pat` by
`rep`, and do not rescan the replacement text. `fuel` bounds the recursion;
with `fuel = s.length` it is never exhausted, since each step consumes at
least one character of `s`. -/
def replaceAux (pat rep : List Char) : Nat → List Char → List Char
  | 0, s => s
  | _ + 1, [] => []
  | fuel + 1, c :: rest =>
    if pat ≠ [] ∧ pat.isPrefixOf (c :: rest) then
      rep ++ replaceAux pat rep fuel ((c :: rest).drop pat.length)
    else
      c :: replaceAux pat rep fuel rest

/-- `template.replace(/pat/g, rep)` for a literal pattern. -/
def replaceAll (pat rep s : List Char) : List Char :=
  replaceAux pat rep s.length s

/-- Whether `pat` occurs as a contiguous substring of `s`. -/
def occursL (pat : List Char) : List Char → Bool
  | [] => pat.isPrefixOf []
  | c :: rest => pat.isPrefixOf (c :: rest) || occursL pat rest

/-- String-level wrapper of `occursL`. -/
def occursS (pat s : String) : Bool :=
  occursL pat.toList s.toList

/-- `personalizeMessage(template, customer)` of campaigns.js:
three sequential global replaces of the literal tokens
`\x7bname\x7d`, `\x7btotalSpent\x7d`, `\x7bvisitCount\x7d`.
`customer.totalSpent?.toLocaleString('en-IN') || 0` renders the spend as
₹-prefixed en-IN grouped digits (the `|| 0` fallback also renders as "0"),
and `customer.visitCount || 0` renders the visit count as a plain number. -/
def personalizeMessage (template : String) (cust : Customer) : String :=
  let s1 := replaceAll "{name}".toList cust.name.toList template.toList
  let s2 := replaceAll "{totalSpent}".toList ("₹" ++ enInInt cust.totalSpent).toList s1
  let s3 := replaceAll "{visitCount}".toList (toString cust.visitCount).toList s2
  String.mk s3

/-! ## Campaign aggregate (backend/models/Campaign.js) -/

/-- The campaign `status` enum. -/
inductive CStatus
  | draft | scheduled | running | completed | paused | cancelled
  deriving DecidableEq, Repr

/-- The campaign `stats` block of delivery counters. -/
structure Stats where
  sent : Nat
  delivered : Nat
  failed : Nat
  pending : Nat
  deriving DecidableEq, Repr

/-- A campaign document, restricted to the fields the dispatch pipeline
reads or writes (`description`, `type`, `createdBy` and `aiInsights` are
carried along untouched and are omitted). -/
structure Campaign where
  id : Nat
  name : String
  messageTemplate : String
  audienceRules : Rules
  audienceSize : Nat
  status : CStatus
  scheduledAt : Option Nat
  startedAt : Option Nat
  completedAt : Option Nat
  stats : Stats
  channel : String
  deriving DecidableEq, Repr

/-- `campaign.updateStats(status)`: `if (this.stats[status] !== undefined)
this.stats[status] += 1` followed by `save()`. The dynamic property access is
keyed by the status string; strings that are not a counter name leave the
document unchanged. -/
def updateStats (c : Campaign) (status : String) : Campaign :=
  if status = "sent" then { c with stats := { c.stats with sent := c.stats.sent + 1 } }
  else if status = "delivered" then { c with stats := { c.stats with delivered := c.stats.delivered + 1 } }
  else if status = "failed" then { c with stats := { c.stats with failed := c.stats.failed + 1 } }
  else if status = "pending" then { c with stats := { c.stats with pending := c.stats.pending + 1 } }
  else c

/-- `campaign.start()`: status becomes `running`, `startedAt` is recorded. -/
def Campaign.start (c : Campaign) (t : Nat) : Campaign :=
  { c with status := .running, startedAt := some t }

/-- `campaign.complete()`: status becomes `completed`, `completedAt` is
recorded. -/
def Campaign.complete (c : Campaign) (t : Nat) : Campaign :=
  { c with status := .completed, completedAt := some t }

/-! ## Delivery log (backend/models/CommunicationLog.js, embedded in
src/backend/services/aiService.js) -/

/-- The delivery-log `status` enum. -/
inductive LStatus
  | pending | sent | delivered | failed | bounced | opened | clicked
  deriving DecidableEq, Repr

/-- A delivery receipt as accepted by the vendor webhook:
`{messageId, status, timestamp, errorCode?, errorMessage?, vendorMessageId?}`,
with `status` validated to one of `sent`/`delivered`/`failed`/`bounced`. -/
inductive RStatus
  | sent | delivered | failed | bounced
  deriving DecidableEq, Repr

/-- The status string carried by a receipt. -/
def rstatusKey : RStatus → String
  | .sent => "sent"
  | .delivered => "delivered"
  | .failed => "failed"
  | .bounced => "bounced"

structure Receipt where
  messageId : String
  status : RStatus
  timestamp : Nat
  errorCode : Option String
  errorMessage : Option String
  vendorMessageId : Option String
  deriving DecidableEq, Repr

/-- The personalization snapshot stored on a log entry at dispatch time. -/
structure PersonalizedData where
  customerName : String
  totalSpent : Int
  visitCount : Int
  deriving DecidableEq, Repr

/-- A delivery-log document. -/
structure LogEntry where
  campaignId : Nat
  customerId : Nat
  messageId : String
  message : String
  channel : String
  status : LStatus
  sentAt : Option Nat
  deliveredAt : Option Nat
  failedAt : Option Nat
  openedAt : Option Nat
  clickedAt : Option Nat
  errorCode : Option String
  errorMessage : Option String
  vendorId : Option String
  vendorResponse : Option Receipt
  retryCount : Nat
  nextRetryAt : Option Nat
  personalizedData : Option PersonalizedData
  deriving DecidableEq, Repr

/-- `communicationLog.markAsSent()`: status `sent`, `sentAt` recorded. -/
def markAsSent (e : LogEntry) (t : Nat) : LogEntry :=
  { e with status := .sent, sentAt := some t }

/-- `communicationLog.markAsDelivered()`: status `delivered`,
`deliveredAt` recorded. -/
def markAsDelivered (e : LogEntry) (t : Nat) : LogEntry :=
  { e with status := .delivered, deliveredAt := some t }

/-- `communicationLog.markAsFailed(errorCode, errorMessage)`: status
`failed`, error fields and `failedAt` recorded, `retryCount` incremented,
and `nextRetryAt` set to now plus `Math.pow(2, retryCount) * 5` minutes
(exponential backoff, with `retryCount` read after the increment). The
schema declares `retryCount: { max: 3 }`, so the concluding `save()` is
rejected by mongoose validation — nothing is persisted and the returned
promise rejects — whenever the incremented count exceeds 3. -/
def markAsFailed (e : LogEntry) (ec em : Option String) (t : Nat) :
    Except String LogEntry :=
  let e1 := { e with
    status := .failed, failedAt := some t,
    errorCode := ec, errorMessage := em,
    retryCount := e.retryCount + 1 }
  let retryDelayMinutes := 2 ^ e1.retryCount * 5
  let e2 := { e1 with nextRetryAt := some (t + retryDelayMinutes * 60 * 1000) }
  if e2.retryCount ≤ 3 then .ok e2
  else .error "ValidationError: retryCount exceeds maximum of 3"

/-- `communicationLog.markAsOpened()`: transitions to `opened` (recording
`openedAt`) only from `delivered`; in any other status the document is
returned unsaved and unchanged. -/
def markAsOpened (e : LogEntry) (t : Nat) : LogEntry :=
  if e.status = .delivered then { e with status := .opened, openedAt := some t }
  else e

/-- `communicationLog.markAsClicked()`: transitions to `clicked` (recording
`clickedAt`) only from `delivered` or `opened`; in any other status the
document is returned unsaved and unchanged. -/
def markAsClicked (e : LogEntry) (t : Nat) : LogEntry :=
  if e.status = .delivered ∨ e.status = .opened then
    { e with status := .clicked, clickedAt := some t }
  else e

/-! ## Persistent state -/

/-- The stored collections the pipeline reads and writes. -/
structure World where
  campaigns : List Campaign
  logs : List LogEntry
  customers : List Customer
  deriving DecidableEq, Repr

/-! ## Receipt reconciliation (backend/routes/vendor.js) -/

/-- `processDeliveryReceipt(receiptData)` of vendor.js.

* Look up the log entry by `messageId`; if absent, log the orphan and return
  normally without touching any document.
* Otherwise set `vendorId`/`vendorResponse` on the in-memory document and
  dispatch on the receipt status: `sent` → `markAsSent`, `delivered` →
  `markAsDelivered` (the probabilistic engagement simulation registered with
  `setTimeout` in that branch fires later as separate `markAsOpened` /
  `markAsClicked` calls and is not part of this synchronous transition),
  `failed`/`bounced` → `markAsFailed`. A rejected `save()` inside the mark
  method propagates out of the `try` block (nothing was persisted) and is
  re-thrown.
* Then find the owning campaign; if present, `updateStats` with the receipt
  status (`bounced` is recorded as `failed`), and if
  `stats.sent + stats.failed >= audienceSize` while the campaign is
  `running`, `complete()` it. A missing campaign skips the aggregate update.
-/
def processDeliveryReceipt (w : World) (r : Receipt) (t : Nat) :
    Except String World :=
  match w.logs.find? (fun l => l.messageId == r.messageId) with
  | none => .ok w
  | some log =>
    let log1 := { log with vendorId := r.vendorMessageId, vendorResponse := some r }
    let saved : Except String LogEntry :=
      match r.status with
      | .sent => .ok (markAsSent log1 t)
      | .delivered => .ok (markAsDelivered log1 t)
      | .failed => markAsFailed log1 r.errorCode r.errorMessage t
      | .bounced => markAsFailed log1 r.errorCode r.errorMessage t
    match saved with
    | .error msg => .error msg
    | .ok log2 =>
      let w1 : World := { w with
        logs := w.logs.map (fun l : LogEntry => if l.messageId == r.messageId then log2 else l) }
      match w1.campaigns.find? (fun c : Campaign => c.id == log.campaignId) with
      | none => .ok w1
      | some camp =>
        let camp1 := updateStats camp (if r.status = .bounced then "failed" else rstatusKey r.status)
        let totalSent := camp1.stats.sent + camp1.stats.failed
        let camp2 :=
          if totalSent ≥ camp1.audienceSize ∧ camp1.status = .running then
            camp1.complete t
          else camp1
        .ok { w1 with
          campaigns := w1.campaigns.map (fun c : Campaign => if c.id == log.campaignId then camp2 else c) }

/-- `GET /track/open/:messageId`: look up the log entry and apply
`markAsOpened` to it; an unknown id only returns the tracking pixel. -/
def trackOpen (w : World) (mid : String) (t : Nat) : World :=
  match w.logs.find? (fun l => l.messageId == mid) with
  | none => w
  | some _ =>
    { w with logs := w.logs.map (fun l => if l.messageId == mid then markAsOpened l t else l) }

/-- `GET /track/click/:messageId`: look up the log entry and apply
`markAsClicked` to it; an unknown id only redirects. -/
def trackClick (w : World) (mid : String) (t : Nat) : World :=
  match w.logs.find? (fun l => l.messageId == mid) with
  | none => w
  | some _ =>
    { w with logs := w.logs.map (fun l => if l.messageId == mid then markAsClicked l t else l) }

/-! ## Campaign launch and dispatch (backend/routes/campaigns.js) -/

/-- One log entry built by the `audience.map` callback of `launchCampaign`:
message id `MSG-<campaignId>-<Date.now()>-<index>-<random suffix>`, the
personalized message body, the campaign channel, and the personalization
snapshot; every other field takes its schema default (`status: pending`,
`retryCount: 0`). -/
def mkLog (c : Campaign) (cust : Customer) (t : Nat) (i : Nat) (suffix : String) :
    LogEntry :=
  { campaignId := c.id
    customerId := cust.id
    messageId := "MSG-" ++ toString c.id ++ "-" ++ toString t ++ "-" ++ toString i ++ "-" ++ suffix
    message := personalizeMessage c.messageTemplate cust
    channel := c.channel
    status := .pending
    sentAt := none, deliveredAt := none, failedAt := none
    openedAt := none, clickedAt := none
    errorCode := none, errorMessage := none
    vendorId := none, vendorResponse := none
    retryCount := 0, nextRetryAt := none
    personalizedData := some ⟨cust.name, cust.totalSpent, cust.visitCount⟩ }

/-- The full list of log entries built for an audience, in audience order,
starting at index `i`. The `Math.random().toString(36)` suffix is supplied
by the explicit `sfx` function. -/
def makeLogs (c : Campaign) (t : Nat) (sfx : Nat → String) :
    Nat → List Customer → List LogEntry
  | _, [] => []
  | i, cust :: rest => mkLog c cust t i (sfx i) :: makeLogs c t sfx (i + 1) rest

/-- The campaign-side accounting loop of `sendMessagesToVendor`: for each log
entry in order, submit to the vendor and `updateStats('sent')` on acceptance
or `updateStats('failed')` when the vendor call throws. The acceptance
outcome of message `i` is supplied by the environment as `outcomes i`. -/
def sendMessagesToVendor (outcomes : Nat → Bool) :
    Nat → List LogEntry → Campaign → Campaign
  | _, [], c => c
  | i, _log :: rest, c =>
    sendMessagesToVendor outcomes (i + 1) rest
      (if outcomes i then updateStats c "sent" else updateStats c "failed")

/-- `launchCampaign(campaign, audience)`: `campaign.start()`, build the
communication logs for the whole audience, and if any exist insert them all
with one `CommunicationLog.insertMany` before `sendMessagesToVendor` issues
any vendor call. -/
def launchCampaign (w : World) (c : Campaign) (aud : List Customer) (t : Nat)
    (sfx : Nat → String) (outcomes : Nat → Bool) : World :=
  let c1 := c.start t
  let w1 := { w with campaigns := w.campaigns.map (fun x => if x.id == c.id then c1 else x) }
  let logs := makeLogs c1 t sfx 0 aud
  if logs.isEmpty then w1
  else
    let w2 := { w1 with logs := w1.logs ++ logs }
    let c2 := sendMessagesToVendor outcomes 0 logs c1
    { w2 with campaigns := w2.campaigns.map (fun x => if x.id == c.id then c2 else x) }

/-- `POST /campaigns/:id/launch`: 404 when the campaign does not exist, 400
(`Only draft campaigns can be launched`) when its status is not `draft`,
otherwise resolve the audience with `evaluateAudience` and run
`launchCampaign`. The returned pair is (HTTP status, resulting store). -/
def launchRoute (w : World) (cid : Nat) (t : Nat) (sfx : Nat → String)
    (outcomes : Nat → Bool) : Nat × World :=
  match w.campaigns.find? (fun c => c.id == cid) with
  | none => (404, w)
  | some c =>
    if c.status ≠ .draft then (400, w)
    else
      let aud := evaluateAudience c.audienceRules w.customers
      (200, launchCampaign w c aud t sfx outcomes)

/-! ## Dispatch event trace (for the ordering property of `launchCampaign`) -/

/-- The observable persistence/vendor operations performed by
`launchCampaign`, in program order. -/
inductive DispatchEvent
  | startCampaign (cid : Nat)
  | insertLogs (logs : List LogEntry)
  | vendorSend (messageId : String)
  | recordStat (cid : Nat) (key : String)
  deriving DecidableEq, Repr

/-- The events emitted by the `sendMessagesToVendor` loop from index `i` on:
for each log entry, the vendor submission followed by the stats update its
outcome triggers. -/
def sendTrace (c : Campaign) (outcomes : Nat → Bool) :
    Nat → List LogEntry → List DispatchEvent
  | _, [] => []
  | i, log :: rest =>
    .vendorSend log.messageId ::
      .recordStat c.id (if outcomes i then "sent" else "failed") ::
        sendTrace c outcomes (i + 1) rest

/-- The event trace of `launchCampaign`: `campaign.start()`, then — when the
audience is non-empty — the single batched `insertMany` of every log entry,
then the vendor submissions. -/
def launchTrace (c : Campaign) (aud : List Customer) (t : Nat)
    (sfx : Nat → String) (outcomes : Nat → Bool) : List DispatchEvent :=
  let c1 := c.start t
  let logs := makeLogs c1 t sfx 0 aud
  .startCampaign c.id ::
    (if logs.isEmpty then [] else .insertLogs logs :: sendTrace c1 outcomes 0 logs)

/-! ## Projections used to read campaign counters out of a store -/

/-- The `stats.sent` counter of the campaign with the given id. -/
def sentOf (w : World) (cid : Nat) : Option Nat :=
  (w.campaigns.find? (fun c => c.id == cid)).map (fun c => c.stats.sent)

/-- The `stats.failed` counter of the campaign with the given id. -/
def failedOf (w : World) (cid : Nat) : Option Nat :=
  (w.campaigns.find? (fun c => c.id == cid)).map (fun c => c.stats.failed)

/-- The `stats.delivered` counter of the campaign with the given id. -/
def deliveredOf (w : World) (cid : Nat) : Option Nat :=
  (w.campaigns.find? (fun c => c.id == cid)).map (fun c => c.stats.delivered)

/-- The `audienceSize` snapshot of the campaign with the given id. -/
def audSizeOf (w : World) (cid : Nat) : Option Nat :=
  (w.campaigns.find? (fun c => c.id == cid)).map (fun c => c.audienceSize)

/-- The status of the log entry with the given message id. -/
def logStatusOf (w : World) (mid : String) : Option LStatus :=
  (w.logs.find? (fun l => l.messageId == mid)).map (fun l => l.status)

/-! ## Concrete example documents used by the counterexamples and witnesses -/

/-- A running campaign with an untouched stats block. -/
def exCampaign : Campaign :=
  { id := 1, name := "Diwali Sale", messageTemplate := "Hello"
    audienceRules := ⟨[⟨.totalSpent, .gt, .prim (.num 10000)⟩], .AND⟩
    audienceSize := 5, status := .running
    scheduledAt := none, startedAt := some 10, completedAt := none
    stats := ⟨0, 0, 0, 0⟩, channel := "email" }

/-- A pending log entry for `exCampaign` with message id `M1`. -/
def exLog : LogEntry :=
  { campaignId := 1, customerId := 7, messageId := "M1", message := "Hello"
    channel := "email", status := .pending
    sentAt := none, deliveredAt := none, failedAt := none
    openedAt := none, clickedAt := none
    errorCode := none, errorMessage := none
    vendorId := none, vendorResponse := none
    retryCount := 0, nextRetryAt := none, personalizedData := none }

/-- A store holding `exCampaign` and `exLog`. -/
def exWorld : World := ⟨[exCampaign], [exLog], []⟩

/-- A `sent` receipt for message `M1`. -/
def exReceipt : Receipt :=
  ⟨"M1", .sent, 100, none, none, some "VENDOR-1"⟩

/-- One application of the receipt handler to `exReceipt`. -/
def exOnce : Except String World := processDeliveryReceipt exWorld exReceipt 100

/-- A second, duplicate application of the same receipt. -/
def exTwice : Except String World :=
  match exOnce with
  | .ok w => processDeliveryReceipt w exReceipt 200
  | .error msg => .error msg

/-- The customer used by the personalization and dispatch examples. -/
def johnDoe : Customer :=
  { id := 7, name := "John Doe", totalSpent := 15000, visitCount := 8
    status := "active", city := none }

/-- A draft campaign whose rule matches exactly `johnDoe`, with the
audience-size snapshot 1 recorded at creation. -/
def c2Campaign : Campaign :=
  { id := 1, name := "Winback", messageTemplate := "Hello"
    audienceRules := ⟨[⟨.totalSpent, .gt, .prim (.num 10000)⟩], .AND⟩
    audienceSize := 1, status := .draft
    scheduledAt := none, startedAt := none, completedAt := none
    stats := ⟨0, 0, 0, 0⟩, channel := "email" }

/-- The store before launching `c2Campaign`. -/
def c2World : World := ⟨[c2Campaign], [], [johnDoe]⟩

/-- Launching `c2Campaign` at time 1000, with the vendor accepting every
submission. -/
def c2Launch : Nat × World :=
  launchRoute c2World 1 1000 (fun _ => "abc123") (fun _ => true)

/-- The message id `launchCampaign` generates for the single recipient. -/
def c2Mid : String := "MSG-1-1000-0-abc123"

/-- The vendor's own `sent` receipt for that message, produced by the
simulated `/vendor/send` handler after acceptance. -/
def c2Receipt : Receipt := ⟨c2Mid, .sent, 2000, none, none, some "VENDOR-2"⟩

/-- The store after the normal launch → accept → `sent`-receipt flow. -/
def c2Final : Except String World := processDeliveryReceipt c2Launch.2 c2Receipt 2000

/-- The AND rule with two conditions on the same field `totalSpent`:
`totalSpent > 1000` and `totalSpent < 500`. -/
def c3Rules : Rules :=
  ⟨[⟨.totalSpent, .gt, .prim (.num 1000)⟩, ⟨.totalSpent, .lt, .prim (.num 500)⟩], .AND⟩

/-- A customer with `totalSpent = 300`: it violates the first condition of
`c3Rules` but satisfies the second. -/
def c3Customer : Customer :=
  { id := 2, name := "Asha", totalSpent := 300, visitCount := 1
    status := "active", city := none }

/-- `stats.sent` of a campaign after a receipt-handler run (`none` when the
handler threw). -/
def sentAfter (r : Except String World) (cid : Nat) : Option Nat :=
  match r with
  | .ok w => sentOf w cid
  | .error _ => none

/-- `stats.failed` of a campaign after a receipt-handler run. -/
def failedAfter (r : Except String World) (cid : Nat) : Option Nat :=
  match r with
  | .ok w => failedOf w cid
  | .error _ => none

/-- `audienceSize` of a campaign after a receipt-handler run. -/
def audSizeAfter (r : Except String World) (cid : Nat) : Option Nat :=
  match r with
  | .ok w => audSizeOf w cid
  | .error _ => none

/-- Status of a log entry after a receipt-handler run. -/
def logStatusAfter (r : Except String World) (mid : String) : Option LStatus :=
  match r with
  | .ok w => logStatusOf w mid
  | .error _ => none

/-- `retryCount` of a log entry after a receipt-handler run. -/
def retryCountAfter (r : Except String World) (mid : String) : Option Nat :=
  match r with
  | .ok w => (w.logs.find? (fun l => l.messageId == mid)).map (fun l => l.retryCount)
  | .error _ => none

/-- `nextRetryAt` of a log entry after a receipt-handler run. -/
def nextRetryAtAfter (r : Except String World) (mid : String) : Option (Option Nat) :=
  match r with
  | .ok w => (w.logs.find? (fun l => l.messageId == mid)).map (fun l => l.nextRetryAt)
  | .error _ => none

/-- A first `failed` receipt for message `M1` of `exWorld`, carrying the
error payload the simulated vendor produces. -/
def c4Receipt : Receipt :=
  ⟨"M1", .failed, 300, some "DELIVERY_FAILED",
    some "Temporary delivery failure - recipient unavailable", some "VENDOR-3"⟩

/-- The store after processing that first `failed` receipt at time 300. -/
def c4Result : Except String World := processDeliveryReceipt exWorld c4Receipt 300

/-- An AND rule whose two conditions name distinct fields. -/
def c3DistinctRules : Rules :=
  ⟨[⟨.totalSpent, .gt, .prim (.num 10000)⟩, ⟨.visitCount, .gte, .prim (.num 5)⟩], .AND⟩

/-- An OR rule over two conditions. -/
def c3OrRules : Rules :=
  ⟨[⟨.totalSpent, .gt, .prim (.num 1000000)⟩, ⟨.status, .eq, .prim (.str "active")⟩], .OR⟩

/-- The template of the personalization round-trip, containing the three
known placeholders and one unknown token. -/
def c5Template : String :=
  "Hi {name}, you spent {totalSpent} in {visitCount} visits! {offer}"

/-- The expected personalization output for `johnDoe`. -/
def c5Output : String :=
  "Hi John Doe, you spent ₹15,000 in 8 visits! {offer}"

/-! # Theorems -/

/-- Claim C9: for every customer with non-negative `totalSpent`, the derived
`valueCategory` is `new` iff `totalSpent < 1000`, `regular` iff
`1000 ≤ totalSpent < 10000`, `high-value` iff `10000 ≤ totalSpent < 50000`,
and `premium` iff `totalSpent ≥ 50000`. -/
theorem c9_valueCategory_thresholds (n : Int) (h : 0 ≤ n) :
    (valueCategory n = "new" ↔ n < 1000) ∧
    (valueCategory n = "regular" ↔ 1000 ≤ n ∧ n < 10000) ∧
    (valueCategory n = "high-value" ↔ 10000 ≤ n ∧ n < 50000) ∧
    (valueCategory n = "premium" ↔ 50000 ≤ n) := by
  unfold valueCategory
  split_ifs with h1 h2 h3 <;>
    refine ⟨⟨fun hs => ?_, fun hn => ?_⟩, ⟨fun hs => ?_, fun hn => ?_⟩,
            ⟨fun hs => ?_, fun hn => ?_⟩, ⟨fun hs => ?_, fun hn => ?_⟩⟩ <;>
    first
      | rfl
      | omega
      | exact absurd hs (by decide)

/-- Witness for C9 at `totalSpent = 15000`. -/
theorem c9_valueCategory_thresholds_witness :
    (0 ≤ (15000 : Int)) ∧
    ((valueCategory 15000 = "new" ↔ (15000 : Int) < 1000) ∧
     (valueCategory 15000 = "regular" ↔ 1000 ≤ (15000 : Int) ∧ (15000 : Int) < 10000) ∧
     (valueCategory 15000 = "high-value" ↔ 10000 ≤ (15000 : Int) ∧ (15000 : Int) < 50000) ∧
     (valueCategory 15000 = "premium" ↔ 50000 ≤ (15000 : Int))) :=
  ⟨by decide, c9_valueCategory_thresholds 15000 (by decide)⟩

/-- Claim C10: `markAsOpened` changes an entry (to `opened`, recording
`openedAt`) exactly when its status is `delivered`, `markAsClicked` changes
it (to `clicked`, recording `clickedAt`) exactly when its status is
`delivered` or `opened`, both leave every other entry unchanged, and hence
the `/track/open` and `/track/click` endpoints cannot move an undelivered
message into an engagement state. -/
theorem c10_engagement_status_guards (e : LogEntry) (t : Nat) :
    (e.status = .delivered →
      markAsOpened e t = { e with status := .opened, openedAt := some t }) ∧
    (e.status ≠ .delivered → markAsOpened e t = e) ∧
    (e.status = .delivered ∨ e.status = .opened →
      markAsClicked e t = { e with status := .clicked, clickedAt := some t }) ∧
    (e.status ≠ .delivered ∧ e.status ≠ .opened → markAsClicked e t = e) ∧
    (∀ (w : World) (mid : String),
      (∀ l ∈ w.logs, l.status ≠ .delivered ∧ l.status ≠ .opened) →
      trackOpen w mid t = w ∧ trackClick w mid t = w) := by
  refine ⟨fun h => by simp [markAsOpened, h],
          fun h => by simp [markAsOpened, h],
          fun h => by simp [markAsClicked, h],
          fun h => by simp [markAsClicked, h.1, h.2],
          fun w mid hall => ⟨?_, ?_⟩⟩
  · unfold trackOpen
    cases hf : w.logs.find? (fun l => l.messageId == mid) with
    | none => rfl
    | some l0 =>
      have hmap : w.logs.map (fun l => if l.messageId == mid then markAsOpened l t else l)
          = w.logs.map id := by
        refine List.map_congr_left fun a ha => ?_
        have : markAsOpened a t = a := by
          simp [markAsOpened, (hall a ha).1]
        simp [this]
      rw [hmap, List.map_id]
  · unfold trackClick
    cases hf : w.logs.find? (fun l => l.messageId == mid) with
    | none => rfl
    | some l0 =>
      have hmap : w.logs.map (fun l => if l.messageId == mid then markAsClicked l t else l)
          = w.logs.map id := by
        refine List.map_congr_left fun a ha => ?_
        have : markAsClicked a t = a := by
          simp [markAsClicked, (hall a ha).1, (hall a ha).2]
        simp [this]
      rw [hmap, List.map_id]

/-- Witness for C10: a `pending` entry is untouched by both operations, a
`delivered` entry is opened, and a store of one `pending` entry is untouched
by the tracking endpoints. -/
theorem c10_engagement_status_guards_witness :
    markAsOpened exLog 5 = exLog ∧
    markAsClicked exLog 5 = exLog ∧
    markAsOpened { exLog with status := .delivered } 5 =
      { { exLog with status := .delivered } with status := .opened, openedAt := some 5 } ∧
    trackOpen exWorld "M1" 5 = exWorld ∧
    trackClick exWorld "M1" 5 = exWorld :=
  ⟨(c10_engagement_status_guards exLog 5).2.1 (by decide),
   (c10_engagement_status_guards exLog 5).2.2.2.1 (by decide),
   (c10_engagement_status_guards { exLog with status := .delivered } 5).1 rfl,
   ((c10_engagement_status_guards exLog 5).2.2.2.2 exWorld "M1" (by decide)).1,
   ((c10_engagement_status_guards exLog 5).2.2.2.2 exWorld "M1" (by decide)).2⟩

/-- Claim C7: a receipt whose `messageId` matches no delivery-log entry is
discarded: the handler returns normally and the store — every campaign's
counters and every log entry — is unchanged. -/
theorem c7_unknown_messageId_discarded (w : World) (r : Receipt) (t : Nat)
    (h : w.logs.find? (fun l => l.messageId == r.messageId) = none) :
    processDeliveryReceipt w r t = .ok w := by
  unfold processDeliveryReceipt
  rw [h]

/-- Witness for C7: a receipt for the unknown id `NOPE` leaves `exWorld`
untouched. -/
theorem c7_unknown_messageId_discarded_witness :
    processDeliveryReceipt exWorld ⟨"NOPE", .sent, 1, none, none, none⟩ 1 = .ok exWorld :=
  c7_unknown_messageId_discarded exWorld ⟨"NOPE", .sent, 1, none, none, none⟩ 1 (by decide)

/-- Claim C8: launching a campaign whose status is not `draft` is rejected
with HTTP 400 and the store is returned unchanged — no status, timestamp,
stats or audience-size mutation, and no delivery-log creation. -/
theorem c8_launch_rejects_non_draft (w : World) (cid t : Nat)
    (sfx : Nat → String) (outcomes : Nat → Bool) (c : Campaign)
    (hfind : w.campaigns.find? (fun x => x.id == cid) = some c)
    (hstatus : c.status ≠ .draft) :
    launchRoute w cid t sfx outcomes = (400, w) := by
  unfold launchRoute
  rw [hfind]
  simp [hstatus]

/-- Witness for C8: launching the `running` campaign of `exWorld` returns
400 and the unchanged store. -/
theorem c8_launch_rejects_non_draft_witness :
    launchRoute exWorld 1 5 (fun _ => "s") (fun _ => true) = (400, exWorld) :=
  c8_launch_rejects_non_draft exWorld 1 5 (fun _ => "s") (fun _ => true)
    exCampaign (by decide) (by decide)

/-- Claim C1 (code bug): `processDeliveryReceipt` is not idempotent.
Applying the same `sent` receipt for message `M1` twice to `exWorld`
increments the owning campaign's `stats.sent` counter both times (1 after
one application, 2 after the duplicate), although the entry's status is
already `sent` when the duplicate arrives; the handler has no
duplicate/stale-receipt guard and calls `campaign.updateStats`
unconditionally. -/
theorem c1_duplicate_receipt_double_counts :
    sentAfter exOnce 1 = some 1 ∧
    logStatusAfter exOnce "M1" = some .sent ∧
    sentAfter exTwice 1 = some 2 ∧
    logStatusAfter exTwice "M1" = some .sent ∧
    sentAfter exTwice 1 ≠ sentAfter exOnce 1 := by
  refine ⟨by decide, by decide, by decide, by decide, by decide⟩

/-- Claim C2 (code bug): the counter invariant
`stats.sent + stats.failed ≤ audienceSize` fails on the normal dispatch
flow. Launching the single-recipient campaign `c2Campaign`
(audience-size snapshot 1) increments `stats.sent` once in
`sendMessagesToVendor` when the vendor accepts the submission, and the
vendor's subsequent `sent` receipt for the same message increments it
again in `processDeliveryReceipt`: the final counters are
`sent = 2, failed = 0` with `audienceSize = 1`. -/
theorem c2_sent_counter_exceeds_audienceSize :
    c2Launch.1 = 200 ∧
    sentOf c2Launch.2 1 = some 1 ∧
    sentAfter c2Final 1 = some 2 ∧
    failedAfter c2Final 1 = some 0 ∧
    audSizeAfter c2Final 1 = some 1 ∧
    ¬(2 + 0 ≤ 1) := by
  refine ⟨by decide, by decide, by decide, by decide, by decide, by decide⟩

/-- Counterexample for C3: with `logic=AND` and two conditions on the same
field (`totalSpent > 1000` and `totalSpent < 500`), `evaluateAudience`
returns the customer with `totalSpent = 300` even though the intersection of
the per-condition match sets over the store is empty — `Object.assign` lets
the last condition on a field overwrite the earlier one. -/
theorem c3_and_same_field_not_intersection :
    evaluateAudience c3Rules [c3Customer] = [c3Customer] ∧
    ([c3Customer].filter fun c =>
      c3Rules.conditions.all fun cond => condMatches c cond) = [] ∧
    condMatches c3Customer ⟨.totalSpent, .gt, .prim (.num 1000)⟩ = false := by
  refine ⟨by decide, by decide, by decide⟩

/-- Claim C4: a `failed`/`bounced` receipt marks the entry failed, increments
`retryCount` by exactly one — the schema validator caps the persisted count
at 3 by rejecting any save that would exceed it — and sets `nextRetryAt` to
the processing time plus `5 minutes × 2^retryCount` (with `retryCount` read
after the increment); in particular a first failure yields `retryCount = 1`
and `nextRetryAt = now + 10 minutes`. The closed conjuncts evaluate the full
receipt handler on `exWorld` for a first `failed` receipt at `t = 300`. -/
theorem c4_failed_receipt_backoff (e : LogEntry) (ec em : Option String) (t : Nat) :
    (e.retryCount < 3 →
      markAsFailed e ec em t = .ok { e with
        status := .failed, failedAt := some t, errorCode := ec, errorMessage := em,
        retryCount := e.retryCount + 1,
        nextRetryAt := some (t + 2 ^ (e.retryCount + 1) * 5 * 60 * 1000) }) ∧
    (e.retryCount = 0 →
      markAsFailed e ec em t = .ok { e with
        status := .failed, failedAt := some t, errorCode := ec, errorMessage := em,
        retryCount := 1, nextRetryAt := some (t + 600000) }) ∧
    (∀ e2, markAsFailed e ec em t = .ok e2 →
      e2.status = .failed ∧ e2.retryCount = e.retryCount + 1 ∧ e2.retryCount ≤ 3) ∧
    (3 ≤ e.retryCount → ∀ e2, markAsFailed e ec em t ≠ .ok e2) ∧
    (logStatusAfter c4Result "M1" = some .failed ∧
     retryCountAfter c4Result "M1" = some 1 ∧
     nextRetryAtAfter c4Result "M1" = some (some 600300) ∧
     failedAfter c4Result 1 = some 1) := by
  refine ⟨fun h => ?_, fun h => ?_, fun e2 h => ?_, fun h e2 hcontra => ?_,
          by decide, by decide, by decide, by decide⟩
  · simp only [markAsFailed]
    rw [if_pos (by omega)]
  · simp only [markAsFailed]
    rw [if_pos (by omega)]
    simp [h]
  · simp only [markAsFailed] at h
    by_cases hle : e.retryCount + 1 ≤ 3
    · rw [if_pos hle] at h
      cases h
      exact ⟨rfl, rfl, hle⟩
    · rw [if_neg hle] at h
      cases h
  · simp only [markAsFailed] at hcontra
    rw [if_neg (by omega)] at hcontra
    cases hcontra

/-- Witness for C4 at the `pending`, `retryCount = 0` entry `exLog`. -/
theorem c4_failed_receipt_backoff_witness :
    markAsFailed exLog none none 40 = .ok { exLog with
      status := .failed, failedAt := some 40, errorCode := none, errorMessage := none,
      retryCount := 1, nextRetryAt := some 600040 } ∧
    (∀ e2, markAsFailed { exLog with retryCount := 3 } none none 40 ≠ .ok e2) :=
  ⟨(c4_failed_receipt_backoff exLog none none 40).2.1 (by decide),
   (c4_failed_receipt_backoff { exLog with retryCount := 3 } none none 40).2.2.2.1
     (by decide)⟩

/-! ## String-replacement lemmas for the personalizer -/

theorem replaceAux_of_not_occurs (pat rep : List Char) :
    ∀ (fuel : Nat) (s : List Char), s.length ≤ fuel →
    occursL pat s = false → replaceAux pat rep fuel s = s := by
  intro fuel
  induction fuel with
  | zero => intro s _ _; rfl
  | succ n ih =>
    intro s hlen hocc
    cases s with
    | nil => rfl
    | cons c rest =>
      unfold occursL at hocc
      rw [Bool.or_eq_false_iff] at hocc
      unfold replaceAux
      rw [if_neg (by simp [hocc.1])]
      have : replaceAux pat rep n rest = rest :=
        ih rest (by simpa using hlen) hocc.2
      rw [this]

theorem replaceAll_of_not_occurs (pat rep s : List Char)
    (h : occursL pat s = false) : replaceAll pat rep s = s :=
  replaceAux_of_not_occurs pat rep s.length s le_rfl h

/-- Claim C5: personalizing `c5Template` (which contains all three known
placeholders and the unknown token for `offer`) against John Doe yields
`c5Output`, which contains "John Doe", the en-IN grouped zero-decimal
"15,000" and "8", retains the unknown token unmodified, and has no known
placeholder left; and a template containing none of the three known
placeholders passes through `personalizeMessage` completely unchanged,
whatever other brace tokens it contains. -/
theorem c5_personalize_round_trip :
    (personalizeMessage c5Template johnDoe = c5Output ∧
     occursS "John Doe" c5Output = true ∧
     occursS "15,000" c5Output = true ∧
     occursS "8" c5Output = true ∧
     occursS "{name}" c5Output = false ∧
     occursS "{totalSpent}" c5Output = false ∧
     occursS "{visitCount}" c5Output = false ∧
     occursS "{offer}" c5Output = true) ∧
    (∀ tpl : String,
      occursS "{name}" tpl = false →
      occursS "{totalSpent}" tpl = false →
      occursS "{visitCount}" tpl = false →
      personalizeMessage tpl johnDoe = tpl) := by
  refine ⟨⟨by decide, by decide, by decide, by decide,
           by decide, by decide, by decide, by decide⟩,
          fun tpl h1 h2 h3 => ?_⟩
  unfold occursS at h1 h2 h3
  simp only [personalizeMessage]
  rw [replaceAll_of_not_occurs _ _ _ h1, replaceAll_of_not_occurs _ _ _ h2,
      replaceAll_of_not_occurs _ _ _ h3]
  rfl

/-- Witness for C5's pass-through clause on a placeholder-free template. -/
theorem c5_personalize_round_trip_witness :
    personalizeMessage "Dear customer, namaste" johnDoe = "Dear customer, namaste" :=
  c5_personalize_round_trip.2 "Dear customer, namaste" (by decide) (by decide) (by decide)

/-! ## Lemmas on the AND query construction -/

theorem buildConditionQuery_fst (cond : Condition) :
    (buildConditionQuery cond).1 = cond.field := by
  cases cond with
  | mk f op v => cases op <;> rfl

theorem assignKey_of_not_mem (q : List (CField × QueryCond)) (f : CField)
    (v : QueryCond) (h : ∀ p ∈ q, p.1 ≠ f) :
    assignKey q f v = q ++ [(f, v)] := by
  have hany : q.any (fun p => p.1 == f) = false := by
    rw [List.any_eq_false]
    intro p hp
    simpa using h p hp
  simp [assignKey, hany]

theorem buildAndQuery_of_distinct_fields (conds : List Condition) :
    ∀ (acc : List (CField × QueryCond)),
    (∀ cond ∈ conds, ∀ p ∈ acc, p.1 ≠ cond.field) →
    List.Pairwise (· ≠ ·) (conds.map (fun cond => cond.field)) →
    conds.foldl
      (fun q cond => assignKey q (buildConditionQuery cond).1 (buildConditionQuery cond).2)
      acc = acc ++ conds.map buildConditionQuery := by
  induction conds with
  | nil => intro acc _ _; simp
  | cons cond rest ih =>
    intro acc hacc hpw
    simp only [List.foldl_cons, List.map_cons]
    have hne : ∀ p ∈ acc, p.1 ≠ (buildConditionQuery cond).1 := by
      rw [buildConditionQuery_fst]
      exact fun p hp => hacc cond (by simp) p hp
    rw [assignKey_of_not_mem acc _ _ hne]
    have hstep :
        (acc ++ [((buildConditionQuery cond).1, (buildConditionQuery cond).2)])
          = acc ++ [buildConditionQuery cond] := by simp
    rw [hstep]
    rw [ih (acc ++ [buildConditionQuery cond]) ?_ (List.pairwise_cons.mp hpw).2]
    · simp
    · intro c2 hc2 p hp
      rcases List.mem_append.mp hp with hmem | hmem
      · exact hacc c2 (List.mem_cons_of_mem _ hc2) p hmem
      · have hpc : p = buildConditionQuery cond := by simpa using hmem
        subst hpc
        rw [buildConditionQuery_fst]
        exact (List.pairwise_cons.mp hpw).1 _ (List.mem_map_of_mem _ hc2)

theorem matchesQuery_map_buildConditionQuery (c : Customer) (conds : List Condition) :
    matchesQuery c (conds.map buildConditionQuery)
      = conds.all (fun cond => condMatches c cond) := by
  unfold matchesQuery condMatches
  induction conds with
  | nil => rfl
  | cons cond rest ih =>
    rw [List.map_cons, List.all_cons, List.all_cons, ih]

/-- Claim C3 (amended): when the conditions of an `AND` rule name pairwise
distinct fields (and the rule is non-empty, as route validation guarantees),
`evaluateAudience` returns exactly the customers satisfying every condition —
the intersection of the per-condition match sets; for `OR` it returns exactly
the customers satisfying at least one condition — the union. When two `AND`
conditions name the same field, `Object.assign` keeps only the last one (see
the counterexample), which is the one way the original claim fails. -/
theorem c3_audience_and_intersection_or_union (rules : Rules)
    (customers : List Customer) (c : Customer) :
    (rules.logic = .AND → rules.conditions ≠ [] →
      List.Pairwise (· ≠ ·) (rules.conditions.map (fun cond => cond.field)) →
      (c ∈ evaluateAudience rules customers ↔
        c ∈ customers ∧ ∀ cond ∈ rules.conditions, condMatches c cond = true)) ∧
    (rules.logic = .OR →
      (c ∈ evaluateAudience rules customers ↔
        c ∈ customers ∧ ∃ cond ∈ rules.conditions, condMatches c cond = true)) := by
  obtain ⟨conds, logic⟩ := rules
  constructor
  · intro hAND hne hpw
    cases hAND
    have hne' : conds.isEmpty = false := by
      simpa [List.isEmpty_iff] using hne
    simp only [evaluateAudience, hne', Bool.false_eq_true, if_false, List.mem_filter]
    have hq : buildAndQuery conds = conds.map buildConditionQuery := by
      unfold buildAndQuery
      rw [buildAndQuery_of_distinct_fields conds [] (by simp) (by simpa using hpw)]
      simp
    rw [hq, matchesQuery_map_buildConditionQuery, List.all_eq_true]
  · intro hOR
    cases hOR
    by_cases hE : conds.isEmpty
    · have : conds = [] := List.isEmpty_iff.mp hE
      subst this
      simp [evaluateAudience]
    · have hne' : conds.isEmpty = false := by
        cases h : conds.isEmpty
        · rfl
        · exact absurd h hE
      simp only [evaluateAudience, hne', Bool.false_eq_true, if_false, List.mem_filter,
        List.any_eq_true]

/-- Witness for C3's amended statement: the AND part applied to the
distinct-field rule `c3DistinctRules` and the OR part applied to
`c3OrRules`, both at John Doe over a two-customer store. -/
theorem c3_audience_and_intersection_or_union_witness :
    (johnDoe ∈ evaluateAudience c3DistinctRules [johnDoe, c3Customer] ↔
      johnDoe ∈ [johnDoe, c3Customer] ∧
      ∀ cond ∈ c3DistinctRules.conditions, condMatches johnDoe cond = true) ∧
    (johnDoe ∈ evaluateAudience c3OrRules [johnDoe, c3Customer] ↔
      johnDoe ∈ [johnDoe, c3Customer] ∧
      ∃ cond ∈ c3OrRules.conditions, condMatches johnDoe cond = true) :=
  ⟨(c3_audience_and_intersection_or_union c3DistinctRules [johnDoe, c3Customer] johnDoe).1
      rfl (by decide) (by decide),
   (c3_audience_and_intersection_or_union c3OrRules [johnDoe, c3Customer] johnDoe).2 rfl⟩

/-! ## Lemma on the dispatch trace -/

theorem sendTrace_vendorSend_mem (c : Campaign) (o : Nat → Bool) :
    ∀ (logs : List LogEntry) (i0 k : Nat) (m : String),
    (sendTrace c o i0 logs).get? k = some (.vendorSend m) →
    m ∈ logs.map (fun l => l.messageId) := by
  intro logs
  induction logs with
  | nil => intro i0 k m h; simp [sendTrace] at h
  | cons log rest ih =>
    intro i0 k m h
    simp only [sendTrace] at h
    match k with
    | 0 =>
      simp only [List.get?] at h
      cases h
      simp
    | 1 =>
      simp only [List.get?] at h
      cases h
    | k + 2 =>
      simp only [List.get?] at h
      exact List.mem_cons_of_mem _ (ih (i0 + 1) k m h)

/-- Claim C6: in the `launchCampaign` dispatch trace, every vendor
submission is preceded by the single batched `insertMany` of the delivery
logs for the entire resolved audience, and the submitted message id belongs
to that batch — so a receipt for a dispatched message can never be processed
before the message's own log record exists. -/
theorem c6_batch_insert_precedes_sends (c : Campaign) (aud : List Customer)
    (t : Nat) (sfx : Nat → String) (outcomes : Nat → Bool) (i : Nat) (m : String)
    (h : (launchTrace c aud t sfx outcomes).get? i = some (.vendorSend m)) :
    ∃ j logs, j < i ∧
      (launchTrace c aud t sfx outcomes).get? j = some (.insertLogs logs) ∧
      logs = makeLogs (c.start t) t sfx 0 aud ∧
      m ∈ logs.map (fun l => l.messageId) := by
  simp only [launchTrace] at h ⊢
  by_cases hE : (makeLogs (c.start t) t sfx 0 aud).isEmpty
  · rw [if_pos hE] at h
    match i with
    | 0 => cases h
    | n + 1 => simp only [List.get?] at h; cases n <;> cases h
  · rw [if_neg hE] at h
    match i with
    | 0 => cases h
    | 1 => simp only [List.get?] at h; cases h
    | k + 2 =>
      refine ⟨1, makeLogs (c.start t) t sfx 0 aud, by omega, ?_, rfl, ?_⟩
      · rw [if_neg hE]
        rfl
      · simp only [List.get?] at h
        exact sendTrace_vendorSend_mem (c.start t) outcomes
          (makeLogs (c.start t) t sfx 0 aud) 0 k m h

/-- Witness for C6: the vendor submission at index 2 of the concrete
single-recipient launch trace is preceded by the batch insert at index 1. -/
theorem c6_batch_insert_precedes_sends_witness :
    ∃ j logs, j < 2 ∧
      (launchTrace c2Campaign [johnDoe] 1000 (fun _ => "abc123")
        (fun _ => true)).get? j = some (.insertLogs logs) ∧
      logs = makeLogs (c2Campaign.start 1000) 1000 (fun _ => "abc123") 0 [johnDoe] ∧
      "MSG-1-1000-0-abc123" ∈ logs.map (fun l => l.messageId) :=
  c6_batch_insert_precedes_sends c2Campaign [johnDoe] 1000 (fun _ => "abc123")
    (fun _ => true) 2 "MSG-1-1000-0-abc123" (by decide)

end CRM
